import Mathlib

/-!
Verification of the Chainway R6 RFID reader client
(webapp/src/services/chainway-r6.service.ts and
webapp/src/components/RFIDReader.tsx).

The service is embedded shallowly: byte buffers are lists of naturals
(each element a byte value 0..255 as delivered by a Uint8Array), the
mutable instance fields of ChainwayR6Service become an explicit
ServiceState record, and each method becomes a function from the state
(plus the outcome of the awaited transport write) to the result, the
successor state, and the list of frames handed to the transport's
writeValue primitive.  JavaScript quirks that matter are modelled
explicitly: Uint8Array.slice clamps its range (never throws),
an out-of-range index read yields undefined (so a numeric coercion of
it yields 0 after ToInt32(NaN)), and Number.prototype.toString(16)
renders lowercase hex digits.
-/

namespace ChainwayR6

/-- JavaScript Uint8Array.slice(a, b): the elements from index a up to
but excluding b, clamped to the buffer, never an error. -/
def jsSlice (l : List Nat) (a b : Nat) : List Nat :=
  (l.drop a).take (b - a)

/-- Lowercase hex digit as produced by Number.prototype.toString(16). -/
def hexDigit (n : Nat) : Char :=
  if n < 10 then Char.ofNat (48 + n) else Char.ofNat (87 + n)

/-- Uppercase hex digit (image of hexDigit under String.toUpperCase). -/
def hexDigitUpper (n : Nat) : Char :=
  if n < 10 then Char.ofNat (48 + n) else Char.ofNat (55 + n)

/-- b.toString(16).padStart(2, the zero character) for a byte value b:
two lowercase hex characters. -/
def toHex2 (b : Nat) : String :=
  String.mk [hexDigit (b / 16 % 16), hexDigit (b % 16)]

/-- Same rendering followed by .toUpperCase(), as used for the EPC. -/
def toHex2Upper (b : Nat) : String :=
  String.mk [hexDigitUpper (b / 16 % 16), hexDigitUpper (b % 16)]

/-- calculateChecksum(data): the modulo-256 additive sum of the bytes
(sum & 0xFF in the source). -/
def calculateChecksum (data : List Nat) : Nat :=
  data.sum % 256

/-- The start-inventory command frame written by startInventory(). -/
def startCommand : List Nat := [0xA0, 0x04, 0x01, 0x27, 0xCC]

/-- The stop-inventory command frame written by stopInventory(). -/
def stopCommand : List Nat := [0xA0, 0x04, 0x01, 0x28, 0xCD]

/-- The get-power query frame written by getPower(). -/
def getPowerCommand : List Nat := [0xA0, 0x04, 0x01, 0xB7, 0x5C]

/-- The set-power frame built by setPower: [0xA0, 0x05, 0x01, 0xB6, p, 0x00]
with the sixth byte overwritten by calculateChecksum of the first five.
The Uint8Array stores the power byte modulo 256 (ToUint8). -/
def setPowerCommand (p : Nat) : List Nat :=
  [0xA0, 0x05, 0x01, 0xB6, p % 256,
    calculateChecksum [0xA0, 0x05, 0x01, 0xB6, p % 256]]

/-- UHFTagInfo as constructed by parseTagData (the optional tid/user/ant
fields are never set by this service and are omitted). -/
structure UHFTagInfo where
  epc : String
  rssi : String
  count : Nat
  pc : String
  timestamp : Nat
deriving Repr, DecidableEq

/-- parseTagData(data): reads RSSI at offset 5, the PC word at offsets
6..7 (lowercase hex), derives the EPC byte length from the PC's first
byte, and reads that many EPC bytes from offset 8 (uppercase hex).
Uint8Array.slice clamps, so a short buffer truncates silently; the only
way the try block can throw is rssi being undefined (buffer shorter
than 6 bytes), in which case rssi.toString() raises and null is
returned.  An absent data[6] is undefined, and (undefined >> 3) is 0
in JavaScript, modelled by the default 0. -/
def parseTagData (now : Nat) (data : List Nat) : Option UHFTagInfo :=
  match data.get? 5 with
  | none => none
  | some rssi =>
    let pc := String.join ((jsSlice data 6 8).map toHex2)
    let epcLen := ((data.getD 6 0) >>> 3 &&& 0x1F) * 2
    let epc := String.join ((jsSlice data 8 (8 + epcLen)).map toHex2Upper)
    some { epc := epc, rssi := toString rssi, count := 1, pc := pc,
           timestamp := now }

/-- The frame acceptance and command extraction performed by
handleNotification: a buffer is considered a frame when its length is
strictly greater than 5 and its first byte is 0xA0; the command byte is
data[3].  No checksum verification appears in the source. -/
def decodeFrame (data : List Nat) : Option Nat :=
  if data.length > 5 && data.getD 0 0 == 0xA0 then
    some (data.getD 3 0)
  else
    none

/-- handleNotification(event) restricted to its observable effect: the
tag (if any) passed to the registered tagReadCallback.  A tag is
produced exactly when the buffer passes the frame check, the command
byte is 0x22 or 0x27, and parseTagData succeeds. -/
def handleNotification (now : Nat) (data : List Nat) : Option UHFTagInfo :=
  match decodeFrame data with
  | none => none
  | some command =>
    if command == 0x22 || command == 0x27 then parseTagData now data
    else none

/-- Connection status values reported to the status callback. -/
inductive ConnectionStatus where
  | disconnected
  | connecting
  | connected
  | error
deriving Repr, DecidableEq

/-- The mutable instance fields of ChainwayR6Service.  The BLE handles
carry no data the claims depend on, so each is modelled as Option Unit
(null versus an object reference). -/
structure ServiceState where
  device : Option Unit
  server : Option Unit
  characteristic : Option Unit
  isInventoryRunning : Bool
deriving Repr, DecidableEq

/-- The field initialisers of ChainwayR6Service: all handles null and
isInventoryRunning false. -/
def initialState : ServiceState :=
  { device := none, server := none, characteristic := none,
    isInventoryRunning := false }

/-- cleanup(): nulls device, server and characteristic and resets
isInventoryRunning to false. -/
def cleanup (_st : ServiceState) : ServiceState :=
  { device := none, server := none, characteristic := none,
    isInventoryRunning := false }

/-- handleDisconnect(): runs cleanup() and then reports the
disconnected status. -/
def handleDisconnect (st : ServiceState) :
    ServiceState × ConnectionStatus :=
  (cleanup st, ConnectionStatus.disconnected)

/-- disconnect(): after asking the transport to tear down, runs
cleanup() and reports the disconnected status. -/
def disconnectOp (st : ServiceState) : ServiceState × ConnectionStatus :=
  (cleanup st, ConnectionStatus.disconnected)

/-- startInventory(): fails with no write when characteristic is null;
otherwise writes the fixed start frame, and only when the awaited
writeValue succeeds sets isInventoryRunning to true and returns true.
Components: returned boolean, successor state, frames written. -/
def startInventory (st : ServiceState) (writeOk : Bool) :
    Bool × ServiceState × List (List Nat) :=
  match st.characteristic with
  | none => (false, st, [])
  | some _ =>
    if writeOk then
      (true, { st with isInventoryRunning := true }, [startCommand])
    else
      (false, st, [startCommand])

/-- stopInventory(): same shape as startInventory with the stop frame,
setting isInventoryRunning to false only after a successful write. -/
def stopInventory (st : ServiceState) (writeOk : Bool) :
    Bool × ServiceState × List (List Nat) :=
  match st.characteristic with
  | none => (false, st, [])
  | some _ =>
    if writeOk then
      (true, { st with isInventoryRunning := false }, [stopCommand])
    else
      (false, st, [stopCommand])

/-- getPower(): writes the query frame when connected and always
returns null synchronously; no state change either way. -/
def getPower (st : ServiceState) (_writeOk : Bool) :
    Option Nat × ServiceState × List (List Nat) :=
  match st.characteristic with
  | none => (none, st, [])
  | some _ => (none, st, [getPowerCommand])

/-- setPower(power): fails with no write when characteristic is null or
when power is outside [0, 30]; otherwise builds the set-power frame,
recomputes its checksum, and writes it.  The power argument is an
integer (the claims' scope); the service never stores it. -/
def setPower (st : ServiceState) (power : Int) (writeOk : Bool) :
    Bool × ServiceState × List (List Nat) :=
  match st.characteristic with
  | none => (false, st, [])
  | some _ =>
    if power < 0 || power > 30 then (false, st, [])
    else (writeOk, st, [setPowerCommand power.toNat])

/-- The distinguishable outcomes of connect(): full success (all three
handles assigned), or a throw at each stage of the awaited sequence.
requestDevice throwing leaves the state untouched; a throw after the
device is assigned but before the GATT server leaves device set; and so
on.  No failure path ever nulls a handle or touches
isInventoryRunning. -/
inductive ConnectOutcome where
  | ok
  | failBeforeDevice
  | failAfterDevice
  | failAfterServer
  | failAfterCharacteristic
deriving Repr, DecidableEq

/-- connect(): the successor state for each outcome. -/
def connect (st : ServiceState) (o : ConnectOutcome) : ServiceState :=
  match o with
  | ConnectOutcome.ok =>
    { st with device := some (), server := some (),
              characteristic := some () }
  | ConnectOutcome.failBeforeDevice => st
  | ConnectOutcome.failAfterDevice => { st with device := some () }
  | ConnectOutcome.failAfterServer =>
    { st with device := some (), server := some () }
  | ConnectOutcome.failAfterCharacteristic =>
    { st with device := some (), server := some (),
              characteristic := some () }

/-- One step of the service: any public operation or transport event,
with every possible write outcome and argument. -/
inductive Step : ServiceState → ServiceState → Prop where
  | connect (st : ServiceState) (o : ConnectOutcome) :
      Step st (connect st o)
  | disconnect (st : ServiceState) : Step st (disconnectOp st).1
  | transportDisconnect (st : ServiceState) :
      Step st (handleDisconnect st).1
  | start (st : ServiceState) (w : Bool) :
      Step st (startInventory st w).2.1
  | stop (st : ServiceState) (w : Bool) :
      Step st (stopInventory st w).2.1
  | setPow (st : ServiceState) (p : Int) (w : Bool) :
      Step st (setPower st p w).2.1
  | getPow (st : ServiceState) (w : Bool) :
      Step st (getPower st w).2.1

/-- States reachable from the freshly constructed service by any
sequence of operations and transport events. -/
inductive Reachable : ServiceState → Prop where
  | init : Reachable initialState
  | step {st st₂ : ServiceState} :
      Reachable st → Step st st₂ → Reachable st₂

/-- TagWithId as kept in the RFIDReader component's Map: a UHFTagInfo
plus the id field set to the EPC. -/
structure TagWithId where
  epc : String
  rssi : String
  count : Nat
  pc : String
  timestamp : Nat
  id : String
deriving Repr, DecidableEq

/-- Map.prototype.get modelled on an insertion-ordered association
list. -/
def mapGet (m : List (String × TagWithId)) (k : String) :
    Option TagWithId :=
  (m.find? (fun kv => kv.1 == k)).map (fun kv => kv.2)

/-- Map.prototype.set: replaces in place when the key exists, appends
otherwise (JavaScript Maps preserve insertion order). -/
def mapSet (m : List (String × TagWithId)) (k : String) (v : TagWithId) :
    List (String × TagWithId) :=
  if m.any (fun kv => kv.1 == k) then
    m.map (fun kv => if kv.1 == k then (k, v) else kv)
  else
    m ++ [(k, v)]

/-- The onTagRead handler registered by RFIDReader: when the EPC is
already present the entry is replaced by the incoming tag's fields with
count set to the existing count plus one; otherwise the incoming tag is
inserted as-is with its id set to the EPC. -/
def onTagReadHandler (prev : List (String × TagWithId))
    (tag : UHFTagInfo) : List (String × TagWithId) :=
  match mapGet prev tag.epc with
  | some existing =>
    mapSet prev tag.epc
      { epc := tag.epc, rssi := tag.rssi, count := existing.count + 1,
        pc := tag.pc, timestamp := tag.timestamp, id := tag.epc }
  | none =>
    mapSet prev tag.epc
      { epc := tag.epc, rssi := tag.rssi, count := tag.count,
        pc := tag.pc, timestamp := tag.timestamp, id := tag.epc }

/-! Helper lemmas shared by several claims. -/

theorem foldl_append_length (l : List String) (init : String) :
    (List.foldl (fun r s => r ++ s) init l).length
      = init.length + (l.map String.length).sum := by
  induction l generalizing init with
  | nil => simp
  | cons a t ih => simp [List.foldl_cons, ih]; ring

theorem join_length (l : List String) :
    (String.join l).length = (l.map String.length).sum := by
  simpa [String.join] using foldl_append_length l ""

theorem toHex2_len (b : Nat) : (toHex2 b).length = 2 := rfl

theorem toHex2Upper_len (b : Nat) : (toHex2Upper b).length = 2 := rfl

theorem join_map_hex_length (f : Nat → String)
    (hf : ∀ b, (f b).length = 2) (l : List Nat) :
    (String.join (l.map f)).length = 2 * l.length := by
  rw [join_length, List.map_map]
  have : (List.map (String.length ∘ f) l) = List.map (fun _ => 2) l := by
    apply List.map_congr_left
    intro b _
    exact hf b
  rw [this]
  induction l with
  | nil => simp
  | cons a t ih => simp [ih]; ring

theorem jsSlice_length (l : List Nat) (a b : Nat) :
    (jsSlice l a b).length = min (b - a) (l.length - a) := by
  simp [jsSlice]

theorem foldl_append_data (l : List String) (init : String) :
    (List.foldl (fun r s => r ++ s) init l).data
      = init.data ++ (l.map String.data).flatten := by
  induction l generalizing init with
  | nil => simp
  | cons a t ih => simp [List.foldl_cons, ih]

theorem join_data (l : List String) :
    (String.join l).data = (l.map String.data).flatten := by
  simpa [String.join] using foldl_append_data l ""

theorem parseTagData_isSome (now : Nat) (data : List Nat)
    (h : 6 ≤ data.length) : (parseTagData now data).isSome = true := by
  have h5 : 5 < data.length := h
  rw [parseTagData, List.get?_eq_get h5]
  simp

/-- C4: for an active channel and 0 ≤ p ≤ 30, setPower writes exactly
the six-byte frame [0xA0, 0x05, 0x01, 0xB6, p, c] with c the
modulo-256 sum of the first five bytes; for p < 0 or p > 30 it fails
immediately with no frame built and no write attempted. -/
theorem setPower_frame (st : ServiceState) (p : Int) (w : Bool) :
    (st.characteristic.isSome = true → 0 ≤ p → p ≤ 30 →
      (setPower st p w).2.2
        = [[0xA0, 0x05, 0x01, 0xB6, p.toNat,
            calculateChecksum [0xA0, 0x05, 0x01, 0xB6, p.toNat]]]
      ∧ (setPowerCommand p.toNat).length = 6
      ∧ (setPowerCommand p.toNat).getD 5 0
          = calculateChecksum (jsSlice (setPowerCommand p.toNat) 0 5))
    ∧ ((p < 0 ∨ 30 < p) → setPower st p w = (false, st, [])) := by
  have hmod : ∀ q : Int, 0 ≤ q → q ≤ 30 → q.toNat % 256 = q.toNat := by
    intro q h0 h30
    have : q.toNat ≤ 30 := Int.toNat_le.mpr h30
    exact Nat.mod_eq_of_lt (lt_of_le_of_lt this (by norm_num))
  constructor
  · intro hc h0 h30
    have hm := hmod p h0 h30
    cases hch : st.characteristic with
    | none => rw [hch] at hc; simp at hc
    | some u =>
      have hrange : ¬(p < 0 || p > 30) = true := by
        simp only [Bool.or_eq_true, decide_eq_true_eq]
        push_neg
        exact ⟨h0, h30⟩
      refine ⟨?_, ?_, ?_⟩
      · simp [setPower, hch, hrange, setPowerCommand, hm]
      · simp [setPowerCommand]
      · simp [setPowerCommand, jsSlice, calculateChecksum]
  · intro hout
    have hrange : (p < 0 || p > 30) = true := by
      simp only [Bool.or_eq_true, decide_eq_true_eq]
      rcases hout with h | h
      · exact Or.inl h
      · exact Or.inr h
    cases hch : st.characteristic with
    | none => simp [setPower, hch]
    | some u => simp [setPower, hch, hrange]

/-- Witness for C4 at the connected state with p = 20 (valid) and
p = 31 (out of range). -/
theorem setPower_frame_witness :
    (setPower ⟨none, none, some (), false⟩ 20 true).2.2
      = [[0xA0, 0x05, 0x01, 0xB6, 20,
          calculateChecksum [0xA0, 0x05, 0x01, 0xB6, 20]]]
    ∧ setPower ⟨none, none, some (), false⟩ 31 true
      = (false, ⟨none, none, some (), false⟩, []) := by
  refine ⟨?_, ?_⟩
  · exact ((setPower_frame ⟨none, none, some (), false⟩ 20 true).1
      rfl (by norm_num) (by norm_num)).1
  · exact (setPower_frame ⟨none, none, some (), false⟩ 31 true).2
      (Or.inr (by norm_num))

/-- C5: with an active channel, startInventory writes exactly
[0xA0, 0x04, 0x01, 0x27, 0xCC] and stopInventory exactly
[0xA0, 0x04, 0x01, 0x28, 0xCD]; a successful write sets
isInventoryRunning to true (resp. false) and returns true, while a
failed write leaves the state entirely unchanged. -/
theorem startStop_inventory (st : ServiceState) (w : Bool)
    (h : st.characteristic.isSome = true) :
    (startInventory st w).2.2 = [[0xA0, 0x04, 0x01, 0x27, 0xCC]]
    ∧ (stopInventory st w).2.2 = [[0xA0, 0x04, 0x01, 0x28, 0xCD]]
    ∧ (w = true →
        (startInventory st w).1 = true
        ∧ (startInventory st w).2.1.isInventoryRunning = true
        ∧ (stopInventory st w).1 = true
        ∧ (stopInventory st w).2.1.isInventoryRunning = false)
    ∧ (w = false →
        (startInventory st w).2.1 = st
        ∧ (stopInventory st w).2.1 = st) := by
  cases hch : st.characteristic with
  | none => rw [hch] at h; simp at h
  | some u =>
    cases w <;>
      simp [startInventory, stopInventory, hch, startCommand, stopCommand]

/-- Witness for C5 at a connected state with a successful write. -/
theorem startStop_inventory_witness :
    (startInventory ⟨some (), some (), some (), false⟩ true).2.1.isInventoryRunning
      = true
    ∧ (stopInventory ⟨some (), some (), some (), false⟩ true).2.1.isInventoryRunning
      = false := by
  have h := startStop_inventory ⟨some (), some (), some (), false⟩ true rfl
  exact ⟨(h.2.2.1 rfl).2.1, (h.2.2.1 rfl).2.2.2⟩

/-- C6: with no characteristic handle, startInventory fails
immediately, attempts no transport write, and leaves the state (in
particular isInventoryRunning) unchanged. -/
theorem startInventory_notConnected (st : ServiceState) (w : Bool)
    (h : st.characteristic = none) :
    startInventory st w = (false, st, []) := by
  simp [startInventory, h]

/-- Witness for C6 at the initial (disconnected) state. -/
theorem startInventory_notConnected_witness :
    startInventory initialState true = (false, initialState, []) :=
  startInventory_notConnected initialState true rfl

/-- C7: an unsolicited transport disconnect while inventory is running
resets isInventoryRunning to false, nulls device, server and
characteristic, reports the disconnected status, and produces exactly
the state that the shared cleanup routine produces — identical to the
explicit disconnect() path. -/
theorem handleDisconnect_resets (st : ServiceState)
    (_h : st.isInventoryRunning = true) :
    (handleDisconnect st).1.isInventoryRunning = false
    ∧ (handleDisconnect st).1.device = none
    ∧ (handleDisconnect st).1.server = none
    ∧ (handleDisconnect st).1.characteristic = none
    ∧ (handleDisconnect st).2 = ConnectionStatus.disconnected
    ∧ (handleDisconnect st).1 = cleanup st
    ∧ handleDisconnect st = disconnectOp st := by
  simp [handleDisconnect, disconnectOp, cleanup]

/-- Witness for C7 at a connected state with inventory running. -/
theorem handleDisconnect_resets_witness :
    (handleDisconnect ⟨some (), some (), some (), true⟩).1.isInventoryRunning
      = false
    ∧ (handleDisconnect ⟨some (), some (), some (), true⟩).2
      = ConnectionStatus.disconnected := by
  have h := handleDisconnect_resets ⟨some (), some (), some (), true⟩ rfl
  exact ⟨h.1, h.2.2.2.2.1⟩

/-- C1 counterexample: a ten-byte buffer whose trailing byte 0xBB does
not equal the modulo-256 sum 0xC9 of the nine preceding bytes is still
decoded — a tag is produced and the callback would be invoked. -/
theorem checksum_not_verified_cx :
    calculateChecksum
        (List.take 9 [0xA0, 0x04, 0x01, 0x22, 0x00, 0x50, 0x08, 0x00, 0xAA, 0xBB])
      ≠ List.getD [0xA0, 0x04, 0x01, 0x22, 0x00, 0x50, 0x08, 0x00, 0xAA, 0xBB] 9 0
    ∧ (handleNotification 0
        [0xA0, 0x04, 0x01, 0x22, 0x00, 0x50, 0x08, 0x00, 0xAA, 0xBB]).isSome
      = true := by
  constructor
  · decide
  · rfl

/-- C1 amended: inbound decoding never verifies the trailing checksum.
A buffer is accepted as a frame exactly when its length exceeds 5 and
its first byte is 0xA0, and a tag is produced (callback invoked)
exactly when additionally the command byte is 0x22 or 0x27 — the
checksum byte plays no role in acceptance. -/
theorem decode_ignores_checksum (now : Nat) (data : List Nat) :
    ((decodeFrame data).isSome = true
      ↔ 5 < data.length ∧ data.getD 0 0 = 0xA0)
    ∧ ((handleNotification now data).isSome = true
      ↔ 5 < data.length ∧ data.getD 0 0 = 0xA0
        ∧ (data.getD 3 0 = 0x22 ∨ data.getD 3 0 = 0x27)) := by
  by_cases hc : (data.length > 5 && data.getD 0 0 == 0xA0) = true
  case pos =>
    have hc2 : 5 < data.length ∧ data.getD 0 0 = 0xA0 := by
      simpa [Bool.and_eq_true, decide_eq_true_eq, beq_iff_eq] using hc
    have hdf : decodeFrame data = some (data.getD 3 0) := by
      rw [decodeFrame, if_pos hc]
    refine ⟨?_, ?_⟩
    · rw [hdf]
      exact ⟨fun _ => hc2, fun _ => rfl⟩
    · unfold handleNotification
      rw [hdf]
      dsimp only
      by_cases hcmd : (data.getD 3 0 == 0x22 || data.getD 3 0 == 0x27) = true
      · rw [if_pos hcmd]
        simp only [Bool.or_eq_true, beq_iff_eq] at hcmd
        rw [parseTagData_isSome now data hc2.1]
        exact ⟨fun _ => ⟨hc2.1, hc2.2, hcmd⟩, fun _ => rfl⟩
      · rw [if_neg hcmd]
        simp only [Bool.or_eq_true, beq_iff_eq, not_or] at hcmd
        constructor
        · intro hcontra
          exact absurd hcontra (by simp)
        · rintro ⟨-, -, hor⟩
          rcases hor with h | h
          · exact absurd h hcmd.1
          · exact absurd h hcmd.2
  case neg =>
    have hnot : ¬(5 < data.length ∧ data.getD 0 0 = 0xA0) := by
      intro hp
      refine hc ?_
      simp only [Bool.and_eq_true, decide_eq_true_eq, beq_iff_eq]
      exact ⟨hp.1, hp.2⟩
    have hdf : decodeFrame data = none := by
      rw [decodeFrame, if_neg hc]
    refine ⟨?_, ?_⟩
    · rw [hdf]
      constructor
      · intro hcontra
        exact absurd hcontra (by simp)
      · intro hp
        exact absurd hp hnot
    · unfold handleNotification
      rw [hdf]
      constructor
      · intro hcontra
        exact absurd hcontra (by simp)
      · rintro ⟨h5, h0, -⟩
        exact absurd ⟨h5, h0⟩ hnot

/-- Witness for C1's amended theorem: the acceptance characterisation
applied at a concrete bad-checksum inventory frame. -/
theorem decode_ignores_checksum_witness :
    (handleNotification 7
        [0xA0, 0x04, 0x01, 0x22, 0x00, 0x50, 0x08, 0x00, 0xAA, 0x00]).isSome
      = true :=
  ((decode_ignores_checksum 7
      [0xA0, 0x04, 0x01, 0x22, 0x00, 0x50, 0x08, 0x00, 0xAA, 0x00]).2).mpr
    ⟨by decide, by decide, Or.inl (by decide)⟩

/-- C3 counterexample: the decoder rejects the very frames this core
emits for start inventory, stop inventory and get power — each is 5
bytes long and the frame check requires length strictly greater
than 5, so decode(encode(cmd)) fails for them. -/
theorem roundTrip_cx :
    decodeFrame startCommand = none
    ∧ decodeFrame stopCommand = none
    ∧ decodeFrame getPowerCommand = none := by
  decide

/-- C3 amended: of the frames this core defines only the six-byte
set-power frame decodes; its decoded command byte is 0xB6 and its
payload byte at index 4 is the input power verbatim.  The five-byte
start, stop and get-power frames are rejected by the length check. -/
theorem roundTrip_setPower_only (p : Nat) (h : p ≤ 30) :
    decodeFrame (setPowerCommand p) = some 0xB6
    ∧ (setPowerCommand p).getD 4 0 = p
    ∧ decodeFrame startCommand = none
    ∧ decodeFrame stopCommand = none
    ∧ decodeFrame getPowerCommand = none := by
  have hm : p % 256 = p := Nat.mod_eq_of_lt (lt_of_le_of_lt h (by norm_num))
  refine ⟨?_, ?_, by decide, by decide, by decide⟩
  · simp [decodeFrame, setPowerCommand]
  · simp [setPowerCommand, hm]

/-- Witness for C3's amended theorem at p = 20. -/
theorem roundTrip_setPower_only_witness :
    decodeFrame (setPowerCommand 20) = some 0xB6
    ∧ (setPowerCommand 20).getD 4 0 = 20 :=
  ⟨(roundTrip_setPower_only 20 (by norm_num)).1,
   (roundTrip_setPower_only 20 (by norm_num)).2.1⟩

/-- C2 counterexample: a frame whose PC word demands 12 EPC bytes while
only one is present is not dropped: parsing succeeds and the callback
receives a tag with the truncated EPC hex string of length 2. -/
theorem epc_truncation_cx :
    ((List.getD [0xA0, 0x04, 0x01, 0x22, 0x00, 0x50, 0x30, 0x00, 0xAA] 6 0)
        >>> 3 &&& 0x1F) * 2 = 12
    ∧ List.length [0xA0, 0x04, 0x01, 0x22, 0x00, 0x50, 0x30, 0x00, 0xAA] = 9
    ∧ (handleNotification 0
        [0xA0, 0x04, 0x01, 0x22, 0x00, 0x50, 0x30, 0x00, 0xAA]).map
        (fun t => t.epc) = some "AA" := by
  refine ⟨by decide, by decide, ?_⟩
  rfl

/-- C2 amended: with L the EPC byte length encoded in the PC word, a
buffer of length at least 6 always parses; when at least L bytes follow
offset 8 the EPC hex string has length exactly 2L, and when fewer are
present parsing still succeeds (slice clamps) with an EPC hex string of
length twice the number of available bytes. -/
theorem parse_epc_length (now : Nat) (data : List Nat)
    (h : 6 ≤ data.length) :
    ((((data.getD 6 0) >>> 3 &&& 0x1F) * 2 ≤ data.length - 8 →
      (parseTagData now data).map (fun t => t.epc.length)
        = some (2 * (((data.getD 6 0) >>> 3 &&& 0x1F) * 2)))
    ∧ (data.length - 8 < ((data.getD 6 0) >>> 3 &&& 0x1F) * 2 →
      (parseTagData now data).map (fun t => t.epc.length)
        = some (2 * (data.length - 8)))) := by
  have h5 : 5 < data.length := h
  have key : (parseTagData now data).map (fun t => t.epc.length)
      = some (2 * min ((((data.getD 6 0) >>> 3 &&& 0x1F) * 2))
          (data.length - 8)) := by
    rw [parseTagData, List.get?_eq_get h5]
    dsimp only
    simp only [Option.map_some']
    rw [join_map_hex_length toHex2Upper toHex2Upper_len, jsSlice_length]
    congr 2
    omega
  refine ⟨fun hle => ?_, fun hlt => ?_⟩
  · rw [key, Nat.min_eq_left hle]
  · rw [key, Nat.min_eq_right (le_of_lt hlt)]

/-- Witness for C2's amended theorem: a frame carrying a PC word asking
for 2 EPC bytes with exactly 2 present yields an EPC string of
length 4. -/
theorem parse_epc_length_witness :
    (parseTagData 0 [0xA0, 0x04, 0x01, 0x22, 0x00, 0x50, 0x08, 0x00, 0xAA, 0xBB]).map
        (fun t => t.epc.length) = some 4 := by
  have h := (parse_epc_length 0
    [0xA0, 0x04, 0x01, 0x22, 0x00, 0x50, 0x08, 0x00, 0xAA, 0xBB]
    (by decide)).1 (by decide)
  simpa using h

/-- Bounded fact: every hex digit this renderer can emit is a decimal
digit or a lowercase letter between a and f. -/
theorem hexDigit_class : ∀ n < 16,
    ((hexDigit n).isDigit
      || (decide ('a' ≤ hexDigit n) && decide (hexDigit n ≤ 'f'))) = true := by
  decide

/-- Both characters of a rendered byte are lowercase hex characters. -/
theorem toHex2_chars (b : Nat) :
    (toHex2 b).data.all
      (fun c => c.isDigit || (decide ('a' ≤ c) && decide (c ≤ 'f')))
      = true := by
  have h1 := hexDigit_class (b / 16 % 16) (Nat.mod_lt _ (by norm_num))
  have h2 := hexDigit_class (b % 16) (Nat.mod_lt _ (by norm_num))
  show ([hexDigit (b / 16 % 16), hexDigit (b % 16)].all _) = true
  simp only [List.all_cons, List.all_nil, Bool.and_true, Bool.and_eq_true]
  exact ⟨h1, h2⟩

/-- Characters of a joined string all satisfy a predicate that every
component satisfies. -/
theorem join_all (p : Char → Bool) (l : List String)
    (hl : ∀ s ∈ l, s.data.all p = true) :
    (String.join l).data.all p = true := by
  rw [join_data, List.all_eq_true]
  intro c hc
  rw [List.mem_flatten] at hc
  obtain ⟨d, hd, hcd⟩ := hc
  rw [List.mem_map] at hd
  obtain ⟨s, hs, rfl⟩ := hd
  exact List.all_eq_true.mp (hl s hs) c hcd

/-- C8 counterexample: PC bytes 0xAB 0xCD render as the lowercase
string "abcd", which is not an uppercase-hex rendering; and a
successfully parsed 7-byte frame renders only 2 PC characters. -/
theorem pc_lowercase_cx :
    (parseTagData 0
        [0xA0, 0x04, 0x01, 0x22, 0x00, 0x50, 0xAB, 0xCD, 0x01, 0x02]).map
        (fun t => t.pc) = some "abcd"
    ∧ (String.data "abcd").all
        (fun c => c.isDigit || (decide ('A' ≤ c) && decide (c ≤ 'F')))
      = false
    ∧ (parseTagData 0 [0xA0, 0x04, 0x01, 0x22, 0x00, 0x50, 0xAB]).map
        (fun t => t.pc.length) = some 2 := by
  refine ⟨rfl, by decide, rfl⟩

/-- C8 amended: whenever both PC bytes are present (buffer length at
least 8), the pc field of the parsed tag is exactly 4 characters, each
a decimal digit or a lowercase letter a..f — the PC word is rendered in
lowercase, unlike the EPC. -/
theorem pc_rendering (now : Nat) (data : List Nat)
    (h : 8 ≤ data.length) :
    (parseTagData now data).map (fun t => t.pc.length) = some 4
    ∧ (parseTagData now data).map
        (fun t => t.pc.data.all
          (fun c => c.isDigit || (decide ('a' ≤ c) && decide (c ≤ 'f'))))
      = some true := by
  have h5 : 5 < data.length := by omega
  constructor
  · rw [parseTagData, List.get?_eq_get h5]
    dsimp only
    simp only [Option.map_some']
    rw [join_map_hex_length toHex2 toHex2_len, jsSlice_length]
    have hmin : min (8 - 6) (data.length - 6) = 2 :=
      Nat.min_eq_left (by omega)
    rw [hmin]
  · rw [parseTagData, List.get?_eq_get h5]
    dsimp only
    simp only [Option.map_some']
    congr 1
    apply join_all
    intro s hs
    rw [List.mem_map] at hs
    obtain ⟨b, hb, rfl⟩ := hs
    exact toHex2_chars b

/-- Witness for C8's amended theorem on a concrete 10-byte frame. -/
theorem pc_rendering_witness :
    (parseTagData 0
        [0xA0, 0x04, 0x01, 0x22, 0x00, 0x50, 0xAB, 0xCD, 0x01, 0x02]).map
        (fun t => t.pc.length) = some 4 :=
  (pc_rendering 0 [0xA0, 0x04, 0x01, 0x22, 0x00, 0x50, 0xAB, 0xCD, 0x01, 0x02]
    (by decide)).1

/-- C9: two notifications parsed into tags with the same EPC, applied
to the empty collection, leave exactly one entry for that EPC whose
count is 2 and whose timestamp is the second notification's time. -/
theorem dedup_two_reads (now₁ now₂ : Nat) (d₁ d₂ : List Nat)
    (t₁ t₂ : UHFTagInfo)
    (h₁ : parseTagData now₁ d₁ = some t₁)
    (h₂ : parseTagData now₂ d₂ = some t₂)
    (he : t₂.epc = t₁.epc) :
    (onTagReadHandler (onTagReadHandler [] t₁) t₂).length = 1
    ∧ (mapGet (onTagReadHandler (onTagReadHandler [] t₁) t₂) t₁.epc).map
        (fun t => t.count) = some 2
    ∧ (mapGet (onTagReadHandler (onTagReadHandler [] t₁) t₂) t₁.epc).map
        (fun t => t.timestamp) = some now₂ := by
  have hc1 : t₁.count = 1 := by
    unfold parseTagData at h₁
    cases hg : d₁.get? 5 with
    | none => rw [hg] at h₁; exact absurd h₁ (by simp)
    | some r =>
      rw [hg] at h₁
      dsimp only at h₁
      injection h₁ with h₁
      rw [← h₁]
  have ht2 : t₂.timestamp = now₂ := by
    unfold parseTagData at h₂
    cases hg : d₂.get? 5 with
    | none => rw [hg] at h₂; exact absurd h₂ (by simp)
    | some r =>
      rw [hg] at h₂
      dsimp only at h₂
      injection h₂ with h₂
      rw [← h₂]
  have hbeq : (t₁.epc == t₂.epc) = true := by simp [he]
  have hbeq₂ : (t₂.epc == t₁.epc) = true := by simp [he]
  simp [onTagReadHandler, mapGet, mapSet, hbeq, hbeq₂, hc1, ht2, he]

/-- Witness for C9 with two concrete notifications 4 time units
apart. -/
theorem dedup_two_reads_witness :
    (mapGet
        (onTagReadHandler
          (onTagReadHandler []
            { epc := "AABB", rssi := "80", count := 1, pc := "0800",
              timestamp := 5 })
          { epc := "AABB", rssi := "80", count := 1, pc := "0800",
            timestamp := 9 })
        "AABB").map (fun t => t.timestamp) = some 9 :=
  (dedup_two_reads 5 9
    [0xA0, 0x04, 0x01, 0x22, 0x00, 0x50, 0x08, 0x00, 0xAA, 0xBB]
    [0xA0, 0x04, 0x01, 0x22, 0x00, 0x50, 0x08, 0x00, 0xAA, 0xBB]
    { epc := "AABB", rssi := "80", count := 1, pc := "0800",
      timestamp := 5 }
    { epc := "AABB", rssi := "80", count := 1, pc := "0800",
      timestamp := 9 }
    rfl rfl rfl).2.2

/-- setPower never changes the service state. -/
theorem setPower_state_id (st : ServiceState) (p : Int) (w : Bool) :
    (setPower st p w).2.1 = st := by
  cases hch : st.characteristic with
  | none => simp [setPower, hch]
  | some u =>
    simp only [setPower, hch]
    split <;> rfl

/-- getPower never changes the service state. -/
theorem getPower_state_id (st : ServiceState) (w : Bool) :
    (getPower st w).2.1 = st := by
  cases hch : st.characteristic with
  | none => simp [getPower, hch]
  | some u => simp [getPower, hch]

/-- C10: in every reachable state of the service, a running inventory
implies a non-null characteristic handle; the flag is set only behind
the non-null check in startInventory and cleared together with the
handle by the shared cleanup, and no other operation breaks the
implication. -/
theorem running_implies_characteristic (st : ServiceState)
    (h : Reachable st) :
    st.isInventoryRunning = true → st.characteristic.isSome = true := by
  induction h with
  | init => intro hr; exact absurd hr (by simp [initialState])
  | step hp hs ih =>
    rename_i s1 s2
    intro hr
    cases hs with
    | connect o =>
      cases o with
      | ok => simp [connect]
      | failBeforeDevice => exact ih hr
      | failAfterDevice =>
        dsimp only [connect] at hr ⊢
        exact ih hr
      | failAfterServer =>
        dsimp only [connect] at hr ⊢
        exact ih hr
      | failAfterCharacteristic => simp [connect]
    | disconnect => simp [disconnectOp, cleanup] at hr
    | transportDisconnect => simp [handleDisconnect, cleanup] at hr
    | start w =>
      cases hch : s1.characteristic with
      | none =>
        simp only [startInventory, hch] at hr ⊢
        simpa [hch] using ih hr
      | some u =>
        cases w <;> simp [startInventory, hch] at hr ⊢
    | stop w =>
      cases hch : s1.characteristic with
      | none =>
        simp only [stopInventory, hch] at hr ⊢
        simpa [hch] using ih hr
      | some u =>
        cases w <;> simp [stopInventory, hch] at hr ⊢
    | setPow p w =>
      rw [setPower_state_id] at hr ⊢
      exact ih hr
    | getPow w =>
      rw [getPower_state_id] at hr ⊢
      exact ih hr

/-- Witness for C10 at the state reached by a successful connect
followed by a successful startInventory, where the flag is true. -/
theorem running_implies_characteristic_witness :
    ((startInventory (connect initialState ConnectOutcome.ok) true).2.1).characteristic.isSome
      = true :=
  running_implies_characteristic _
    (Reachable.step
      (Reachable.step Reachable.init
        (Step.connect initialState ConnectOutcome.ok))
      (Step.start (connect initialState ConnectOutcome.ok) true))
    (by decide)

end ChainwayR6
